import Mathlib

/-!
# Verification of the storeit-rs transactional execution engine

Shallow embedding of the transaction managers of the `storeit-rs` repository:

* `storeit_core/src/transactions.rs` — shared definition types and the
  `DefaultTransactionManager`;
* `storeit_libsql/src/lib.rs` — `LibsqlTransactionManager::execute` and the
  connection-resolution logic of `LibsqlRepository`;
* `storeit_tokio_postgres/src/lib.rs` — `TokioPostgresTransactionManager::execute`;
* `storeit_mysql_async/src/lib.rs` — `MysqlAsyncTransactionManager::execute`.

Each backend `execute` is embedded as a pure state-passing function. The
chain-local binding store (the `tokio::task_local!` stack of connections and
savepoint counter) becomes an explicit state value. The unit of work `f` is an
arbitrary state transformer returning a result, the state it leaves behind and
the list of SQL statements it executed, so nested `execute` calls can be
composed as the work of an outer call. The driver is modelled by an
environment `Env` deciding which control statements fail; statements the
source executes through `.ok()` (failures discarded) never consult the
environment, mirroring the discard. The `trace` field of the output records
every transaction-control statement the manager submits to the driver, in
program order, whether or not it succeeded.
-/

/-- Transaction propagation behavior (`Propagation` in
`storeit_core/src/transactions.rs`). -/
inductive Propagation where
  | required
  | requiresNew
  | supports
  | notSupported
  | never
  | nested
deriving DecidableEq, Repr

/-- Transaction isolation level (`Isolation` in
`storeit_core/src/transactions.rs`). -/
inductive Isolation where
  | default
  | readCommitted
  | repeatableRead
  | serializable
deriving DecidableEq, Repr

/-- `TransactionDefinition` from `storeit_core/src/transactions.rs`.
`timeout` is the optional `Duration`, modelled in milliseconds. -/
structure TransactionDefinition where
  propagation : Propagation
  isolation : Isolation
  read_only : Bool
  timeout : Option Nat
deriving DecidableEq, Repr

/-- `RepoError` from `storeit_core/src/lib.rs`. The boxed driver error of the
`Mapping`/`Backend` variants is modelled as a string (for errors produced by
the managers it is the failed statement, or `connectErrMsg`). -/
inductive RepoError where
  | notFound
  | mapping (source : String)
  | backend (source : String)
deriving DecidableEq, Repr

deriving instance DecidableEq for Except

/-- Error message of the `Propagation::Never` rejection, identical in all
three backends. -/
def neverMsg : String := "Transaction exists but Propagation::Never requested"

/-- Stands in for the opaque driver error produced when acquiring a
connection fails (`db.connect()` / `pool.get_conn()` / `tokio_postgres::connect`). -/
def connectErrMsg : String := "connect failed"

/-- Driver environment: whether acquiring a connection fails, the identity of
a freshly acquired connection, and which control statements fail when the
source checks their result (statements run through `.ok()` ignore this). -/
structure Env where
  connectFails : Bool
  freshConn : Nat
  fails : String → Bool

/-- The binding store of the libsql and postgres backends: the task-local
stack of connections (`TX_STACK` / `PG_TX_STACK`, head = top of the Rust
`Vec`) and the savepoint counter (`SP_DEPTH` / `PG_SP_DEPTH`). -/
structure StackStore where
  stack : List Nat
  depth : Nat
deriving DecidableEq, Repr

/-- The binding store of the mysql backend: the task-local optional
transaction connection (`MY_TX_CONN`) and savepoint counter (`MY_SP_DEPTH`). -/
structure MysqlStore where
  conn : Option Nat
  depth : Nat
deriving DecidableEq, Repr

/-- A unit of work: from the binding store it receives, produce a result, the
store it leaves behind, and the statements it executed. A nested `execute`
call is itself a `Work` value. -/
def Work (σ ρ : Type) : Type := σ → Except RepoError ρ × σ × List String

/-- Outcome of one `execute` call: the returned result, the binding store
after the call, the transaction-control statements the manager submitted
(work statements included, in program order), and whether the work closure
was invoked. -/
structure ExecOut (σ ρ : Type) where
  res : Except RepoError ρ
  state : σ
  trace : List String
  workInvoked : Bool

/-- `begin_sql` from `storeit_libsql/src/lib.rs`. -/
def begin_sql (isolation : Isolation) : String :=
  match isolation with
  | .default | .readCommitted => "BEGIN DEFERRED"
  | .repeatableRead => "BEGIN IMMEDIATE"
  | .serializable => "BEGIN EXCLUSIVE"

/-- Savepoint name `format!("sp{}", n)` used by all three backends. -/
def spName (n : Nat) : String := "sp" ++ toString n

namespace LibsqlTransactionManager

/-- `LibsqlTransactionManager::execute` from `storeit_libsql/src/lib.rs`
(the `fut` block; the surrounding scope initialization only installs the
empty store, which here is the caller-supplied initial state).

Control flow is transcribed with the `active` test (`!TX_STACK.is_empty()`)
as the outermost split; the source computes `active` once and branches on it
at each step, which is equivalent:
* `(NotSupported | Supports) && !active` — run `f` directly;
* `Never && active` — `Backend` error, `f` never invoked;
* otherwise acquire a connection (top of stack when active, else
  `db.connect()?`), then when inactive apply the read-only and busy-timeout
  pragmas (`.ok()`), issue `begin_sql` (`?`), push the connection and zero
  the depth; when active and `RequiresNew`/`Nested`, issue
  `SAVEPOINT sp(depth+1)` (`.ok()`) and increment the depth;
* run `f`; if this call created the transaction, issue `COMMIT`/`ROLLBACK`
  (`?` — on failure the error returns *before* the pop), then the
  read-only-off pragma (`.ok()`) and pop; if it opened a savepoint, issue
  `RELEASE SAVEPOINT`/`ROLLBACK TO SAVEPOINT` on the name `sp(current depth)`
  (`.ok()`) and decrement the depth (guarded at zero). -/
def execute {ρ : Type} (env : Env) (d : TransactionDefinition)
    (work : Work StackStore ρ) (s : StackStore) : ExecOut StackStore ρ :=
  if s.stack = [] then
    -- active = false
    if d.propagation = .notSupported ∨ d.propagation = .supports then
      match work s with
      | (r, s1, tr) => ⟨r, s1, tr, true⟩
    else if env.connectFails then
      ⟨.error (.backend connectErrMsg), s, [], false⟩
    else
      -- start a new transaction on a fresh connection
      let pre : List String :=
        (if d.read_only then ["PRAGMA query_only = ON"] else []) ++
        ["PRAGMA busy_timeout = " ++ toString (d.timeout.getD 1000)] ++
        [begin_sql d.isolation]
      if env.fails (begin_sql d.isolation) then
        -- BEGIN failed: no push, work not invoked
        ⟨.error (.backend (begin_sql d.isolation)), s, pre, false⟩
      else
        match work ⟨env.freshConn :: s.stack, 0⟩ with
        | (r, s2, trw) =>
          match r with
          | .ok v =>
            if env.fails "COMMIT" then
              ⟨.error (.backend "COMMIT"), s2, pre ++ trw ++ ["COMMIT"], true⟩
            else
              ⟨.ok v, ⟨s2.stack.tail, s2.depth⟩,
                pre ++ trw ++ ["COMMIT"] ++
                (if d.read_only then ["PRAGMA query_only = OFF"] else []), true⟩
          | .error e =>
            if env.fails "ROLLBACK" then
              ⟨.error (.backend "ROLLBACK"), s2, pre ++ trw ++ ["ROLLBACK"], true⟩
            else
              ⟨.error e, ⟨s2.stack.tail, s2.depth⟩,
                pre ++ trw ++ ["ROLLBACK"] ++
                (if d.read_only then ["PRAGMA query_only = OFF"] else []), true⟩
  else
    -- active = true
    if d.propagation = .never then
      ⟨.error (.backend neverMsg), s, [], false⟩
    else if d.propagation = .requiresNew ∨ d.propagation = .nested then
      -- open a savepoint on the existing transaction connection
      match work ⟨s.stack, s.depth + 1⟩ with
      | (r, s2, trw) =>
        let endStmt : String :=
          match r with
          | .ok _ => "RELEASE SAVEPOINT " ++ spName s2.depth
          | .error _ => "ROLLBACK TO SAVEPOINT " ++ spName s2.depth
        ⟨r, ⟨s2.stack, s2.depth - 1⟩,
          ("SAVEPOINT " ++ spName (s.depth + 1)) :: trw ++ [endStmt], true⟩
    else
      -- join the existing transaction (Required/Supports/NotSupported)
      match work s with
      | (r, s1, tr) => ⟨r, s1, tr, true⟩

end LibsqlTransactionManager

/-- `isolation_sql` from `storeit_tokio_postgres/src/lib.rs`. -/
def isolation_sql (isolation : Isolation) : Option String :=
  match isolation with
  | .default => none
  | .readCommitted => some "SET TRANSACTION ISOLATION LEVEL READ COMMITTED"
  | .repeatableRead => some "SET TRANSACTION ISOLATION LEVEL REPEATABLE READ"
  | .serializable => some "SET TRANSACTION ISOLATION LEVEL SERIALIZABLE"

namespace TokioPostgresTransactionManager

/-- `TokioPostgresTransactionManager::execute` from
`storeit_tokio_postgres/src/lib.rs` (the `fut` block; the scope
initialization only installs the empty store, here the caller-supplied
initial state). Same structure as the libsql manager, with these
differences taken from the source:
* a new transaction issues `BEGIN` first (`?`), then the isolation
  statement, `SET TRANSACTION READ ONLY` and
  `SET LOCAL statement_timeout = '<ms>ms'`, each best-effort (`.ok()`);
* there are no pragmas and no read-only-off statement;
* `COMMIT`/`ROLLBACK` are checked (`?`) and, as in the libsql manager, a
  failure returns before the stack is popped. -/
def execute {ρ : Type} (env : Env) (d : TransactionDefinition)
    (work : Work StackStore ρ) (s : StackStore) : ExecOut StackStore ρ :=
  if s.stack = [] then
    -- active = false
    if d.propagation = .notSupported ∨ d.propagation = .supports then
      match work s with
      | (r, s1, tr) => ⟨r, s1, tr, true⟩
    else if env.connectFails then
      ⟨.error (.backend connectErrMsg), s, [], false⟩
    else if env.fails "BEGIN" then
      ⟨.error (.backend "BEGIN"), s, ["BEGIN"], false⟩
    else
      let pre : List String :=
        ["BEGIN"] ++
        (match isolation_sql d.isolation with
          | some stmt => [stmt]
          | none => []) ++
        (if d.read_only then ["SET TRANSACTION READ ONLY"] else []) ++
        (match d.timeout with
          | some ms => ["SET LOCAL statement_timeout = '" ++ toString ms ++ "ms'"]
          | none => [])
      match work ⟨env.freshConn :: s.stack, 0⟩ with
      | (r, s2, trw) =>
        match r with
        | .ok v =>
          if env.fails "COMMIT" then
            ⟨.error (.backend "COMMIT"), s2, pre ++ trw ++ ["COMMIT"], true⟩
          else
            ⟨.ok v, ⟨s2.stack.tail, s2.depth⟩, pre ++ trw ++ ["COMMIT"], true⟩
        | .error e =>
          if env.fails "ROLLBACK" then
            ⟨.error (.backend "ROLLBACK"), s2, pre ++ trw ++ ["ROLLBACK"], true⟩
          else
            ⟨.error e, ⟨s2.stack.tail, s2.depth⟩, pre ++ trw ++ ["ROLLBACK"], true⟩
  else
    -- active = true
    if d.propagation = .never then
      ⟨.error (.backend neverMsg), s, [], false⟩
    else if d.propagation = .requiresNew ∨ d.propagation = .nested then
      match work ⟨s.stack, s.depth + 1⟩ with
      | (r, s2, trw) =>
        let endStmt : String :=
          match r with
          | .ok _ => "RELEASE SAVEPOINT " ++ spName s2.depth
          | .error _ => "ROLLBACK TO SAVEPOINT " ++ spName s2.depth
        ⟨r, ⟨s2.stack, s2.depth - 1⟩,
          ("SAVEPOINT " ++ spName (s.depth + 1)) :: trw ++ [endStmt], true⟩
    else
      match work s with
      | (r, s1, tr) => ⟨r, s1, tr, true⟩

end TokioPostgresTransactionManager

/-- The isolation statement the mysql manager issues (the `match
def.isolation` arms in `MysqlAsyncTransactionManager::execute`); all arms are
run through `.ok()`. -/
def mysqlIsolationStmt (isolation : Isolation) : Option String :=
  match isolation with
  | .default => none
  | .readCommitted => some "SET TRANSACTION ISOLATION LEVEL READ COMMITTED"
  | .repeatableRead => some "SET TRANSACTION ISOLATION LEVEL REPEATABLE READ"
  | .serializable => some "SET TRANSACTION ISOLATION LEVEL SERIALIZABLE"

namespace MysqlAsyncTransactionManager

/-- `MysqlAsyncTransactionManager::execute` from
`storeit_mysql_async/src/lib.rs` (the `run` block). Differences from the
other two backends, taken from the source:
* the binding store holds one optional connection (`MY_TX_CONN`), not a
  stack; `in_tx` is `conn.is_some()`;
* only `pool.get_conn()` is checked (`?`); every control statement —
  `START TRANSACTION`, the isolation statement (issued *after* the start),
  `SET TRANSACTION READ ONLY`, the lock-wait variable (`timeout.as_secs()`),
  `SAVEPOINT`, `COMMIT`, `ROLLBACK`, `RELEASE`/`ROLLBACK TO` — is run
  through `.ok()`, so its failure is discarded and the flow continues;
* on completion of a created transaction the connection is `take()`n out of
  the store before `COMMIT`/`ROLLBACK`, so the binding is always cleared;
  the commit/rollback statement is only issued if the store still held a
  connection after `work`;
* the savepoint epilogue (release/rollback-to and the depth decrement) runs
  only if the store still holds a connection after `work`. -/
def execute {ρ : Type} (env : Env) (d : TransactionDefinition)
    (work : Work MysqlStore ρ) (s : MysqlStore) : ExecOut MysqlStore ρ :=
  match s.conn with
  | none =>
    -- in_tx = false
    if d.propagation = .notSupported ∨ d.propagation = .supports then
      match work s with
      | (r, s1, tr) => ⟨r, s1, tr, true⟩
    else if env.connectFails then
      ⟨.error (.backend connectErrMsg), s, [], false⟩
    else
      let pre : List String :=
        ["START TRANSACTION"] ++
        (match mysqlIsolationStmt d.isolation with
          | some stmt => [stmt]
          | none => []) ++
        (if d.read_only then ["SET TRANSACTION READ ONLY"] else []) ++
        (match d.timeout with
          | some ms =>
            ["SET SESSION innodb_lock_wait_timeout = " ++ toString (ms / 1000)]
          | none => [])
      match work ⟨some env.freshConn, 0⟩ with
      | (r, s2, trw) =>
        match s2.conn with
        | some _ =>
          ⟨r, ⟨none, s2.depth⟩,
            pre ++ trw ++
            [(match r with | .ok _ => "COMMIT" | .error _ => "ROLLBACK")], true⟩
        | none =>
          -- the store was emptied during work: take() yields None, nothing issued
          ⟨r, ⟨none, s2.depth⟩, pre ++ trw, true⟩
  | some _ =>
    -- in_tx = true
    if d.propagation = .never then
      ⟨.error (.backend neverMsg), s, [], false⟩
    else if d.propagation = .requiresNew ∨ d.propagation = .nested then
      match work ⟨s.conn, s.depth + 1⟩ with
      | (r, s2, trw) =>
        match s2.conn with
        | some _ =>
          let endStmt : String :=
            match r with
            | .ok _ => "RELEASE SAVEPOINT " ++ spName s2.depth
            | .error _ => "ROLLBACK TO SAVEPOINT " ++ spName s2.depth
          ⟨r, ⟨s2.conn, s2.depth - 1⟩,
            ("SAVEPOINT " ++ spName (s.depth + 1)) :: trw ++ [endStmt], true⟩
        | none =>
          ⟨r, s2, ("SAVEPOINT " ++ spName (s.depth + 1)) :: trw, true⟩
    else
      match work s with
      | (r, s1, tr) => ⟨r, s1, tr, true⟩

end MysqlAsyncTransactionManager

namespace DefaultTransactionManager

/-- `DefaultTransactionManager::execute` from
`storeit_core/src/transactions.rs`: `f(TransactionContext::new()).await` —
the definition is ignored and the closure simply runs. The store type is
arbitrary since no binding store exists or is consulted. -/
def execute {σ ρ : Type} (_d : TransactionDefinition)
    (work : Work σ ρ) (s : σ) : ExecOut σ ρ :=
  match work s with
  | (r, s1, tr) => ⟨r, s1, tr, true⟩

end DefaultTransactionManager

namespace LibsqlRepository

/-- The connection-resolution block repeated verbatim at the top of
`find_by_id`, `find_by_field`, `insert`, `update` and `delete_by_id` of
`LibsqlRepository` in `storeit_libsql/src/lib.rs`:

1. `if let Ok(Some(tx_conn)) = TX_STACK.try_with(|cell| cell.borrow().last().cloned())`
   — the top of the ambient transaction stack;
2. `else if let Some(c) = &self.conn` — the connection bound at
   construction (`from_conn`), if any;
3. `else self.db.connect().map_err(RepoError::backend)?` — a fresh
   connection from the manager's database. -/
def resolveConn (s : StackStore) (bound : Option Nat) (env : Env) :
    Except RepoError Nat :=
  match s.stack.head? with
  | some txConn => .ok txConn
  | none =>
    match bound with
    | some c => .ok c
    | none =>
      if env.connectFails then .error (.backend connectErrMsg)
      else .ok env.freshConn

/-- Connection used by `LibsqlRepository::find_by_id`. -/
def find_by_id_conn (s : StackStore) (bound : Option Nat) (env : Env) :
    Except RepoError Nat := resolveConn s bound env

/-- Connection used by `LibsqlRepository::find_by_field`. -/
def find_by_field_conn (s : StackStore) (bound : Option Nat) (env : Env) :
    Except RepoError Nat := resolveConn s bound env

/-- Connection used by `LibsqlRepository::insert`. -/
def insert_conn (s : StackStore) (bound : Option Nat) (env : Env) :
    Except RepoError Nat := resolveConn s bound env

/-- Connection used by `LibsqlRepository::update`. -/
def update_conn (s : StackStore) (bound : Option Nat) (env : Env) :
    Except RepoError Nat := resolveConn s bound env

/-- Connection used by `LibsqlRepository::delete_by_id`. -/
def delete_by_id_conn (s : StackStore) (bound : Option Nat) (env : Env) :
    Except RepoError Nat := resolveConn s bound env

end LibsqlRepository

/-- Driver environment in which every operation succeeds. -/
def envOk : Env := ⟨false, 7, fun _ => false⟩

/-- Driver environment in which the `COMMIT` statement fails and everything
else succeeds. -/
def envCommitFails : Env := ⟨false, 7, fun stmt => stmt == "COMMIT"⟩

/-- Driver environment in which the `ROLLBACK` statement fails and everything
else succeeds. -/
def envRollbackFails : Env := ⟨false, 7, fun stmt => stmt == "ROLLBACK"⟩

/-- Driver environment in which every statement fails (connections are still
handed out). -/
def envAllStmtsFail : Env := ⟨false, 7, fun _ => true⟩

/-- A unit of work that succeeds with `0`, touches nothing and runs no
statements. -/
def wOk {σ : Type} : Work σ Nat := fun s => (.ok 0, s, [])

/-- A unit of work that fails with `RepoError::backend("boom")`, touches
nothing and runs no statements. -/
def wBoom {σ : Type} : Work σ Nat := fun s => (.error (.backend "boom"), s, [])

/-- A unit of work that reports how many connections the ambient stack holds
while it runs (how a `Repository` call inside `work` would see the store). -/
def wProbeStack : Work StackStore Nat := fun s => (.ok s.stack.length, s, [])

/-- A unit of work that reports whether a transaction connection is bound
while it runs. -/
def wProbeMysql : Work MysqlStore Nat :=
  fun s => (.ok (if s.conn.isSome then 1 else 0), s, [])

/-- C9: `DefaultTransactionManager::execute` invokes the work closure exactly
once and returns its result, state and statements unchanged; it issues no
transaction-control statements of its own, consults no binding store, and its
outcome is independent of the `TransactionDefinition` — in particular a
`Propagation::Never` definition is never rejected. -/
theorem default_manager_runs_work_unchanged {σ ρ : Type}
    (d d' : TransactionDefinition) (work : Work σ ρ) (s : σ) :
    (DefaultTransactionManager.execute d work s).res = (work s).1 ∧
    (DefaultTransactionManager.execute d work s).state = (work s).2.1 ∧
    (DefaultTransactionManager.execute d work s).trace = (work s).2.2 ∧
    (DefaultTransactionManager.execute d work s).workInvoked = true ∧
    DefaultTransactionManager.execute d work s =
      DefaultTransactionManager.execute d' work s := by
  unfold DefaultTransactionManager.execute
  rcases h : work s with ⟨r, s1, tr⟩
  simp [h]

/-- C1: in all three backends, an `execute` call whose definition has
propagation `Never` while a transaction is already active in the chain
(stack non-empty / transaction connection bound) returns the `Backend` error
immediately: the work closure is never invoked, no statement is issued, and
the binding store is untouched. -/
theorem never_while_active_rejects_without_invoking_work {ρ : Type}
    (env : Env) (d : TransactionDefinition) (hprop : d.propagation = .never)
    (wl : Work StackStore ρ) (sl : StackStore) (hl : sl.stack ≠ [])
    (wp : Work StackStore ρ) (sg : StackStore) (hg : sg.stack ≠ [])
    (wm : Work MysqlStore ρ) (sm : MysqlStore) (c : Nat)
    (hm : sm.conn = some c) :
    (LibsqlTransactionManager.execute env d wl sl).res
        = .error (.backend neverMsg) ∧
    (LibsqlTransactionManager.execute env d wl sl).workInvoked = false ∧
    (LibsqlTransactionManager.execute env d wl sl).trace = [] ∧
    (LibsqlTransactionManager.execute env d wl sl).state = sl ∧
    (TokioPostgresTransactionManager.execute env d wp sg).res
        = .error (.backend neverMsg) ∧
    (TokioPostgresTransactionManager.execute env d wp sg).workInvoked = false ∧
    (TokioPostgresTransactionManager.execute env d wp sg).trace = [] ∧
    (TokioPostgresTransactionManager.execute env d wp sg).state = sg ∧
    (MysqlAsyncTransactionManager.execute env d wm sm).res
        = .error (.backend neverMsg) ∧
    (MysqlAsyncTransactionManager.execute env d wm sm).workInvoked = false ∧
    (MysqlAsyncTransactionManager.execute env d wm sm).trace = [] ∧
    (MysqlAsyncTransactionManager.execute env d wm sm).state = sm := by
  unfold LibsqlTransactionManager.execute TokioPostgresTransactionManager.execute
    MysqlAsyncTransactionManager.execute
  simp [hl, hg, hm, hprop]

/-- Witness for C1 at concrete inputs. -/
theorem never_while_active_rejects_witness :
    (⟨.never, .serializable, true, some 5⟩ : TransactionDefinition).propagation
        = .never ∧
    (⟨[3], 0⟩ : StackStore).stack ≠ [] ∧
    (⟨[4, 9], 1⟩ : StackStore).stack ≠ [] ∧
    (⟨some 2, 0⟩ : MysqlStore).conn = some 2 ∧
    (LibsqlTransactionManager.execute envOk ⟨.never, .serializable, true, some 5⟩
        wOk ⟨[3], 0⟩).res = .error (.backend neverMsg) := by
  refine ⟨rfl, by decide, by decide, rfl, ?_⟩
  exact (never_while_active_rejects_without_invoking_work envOk
    ⟨.never, .serializable, true, some 5⟩ rfl wOk ⟨[3], 0⟩ (by decide)
    wOk ⟨[4, 9], 1⟩ (by decide) wOk ⟨some 2, 0⟩ 2 rfl).1

/-- C2 (failing input): in the libsql and postgres backends, when the
`COMMIT` (or `ROLLBACK`) statement of a transaction this call started fails,
`execute` returns the `Backend` error *before* popping the connection it
pushed: the binding store is left with the dead connection on the stack.
Under `envOk` the same calls restore the stack to `[]`, and the mysql
backend clears its binding even when every statement fails. -/
theorem commit_failure_leaves_connection_on_stack :
    (LibsqlTransactionManager.execute envCommitFails ⟨.required, .default, false, none⟩
        wOk ⟨[], 0⟩).res = .error (.backend "COMMIT") ∧
    (LibsqlTransactionManager.execute envCommitFails ⟨.required, .default, false, none⟩
        wOk ⟨[], 0⟩).state.stack = [7] ∧
    (LibsqlTransactionManager.execute envRollbackFails ⟨.required, .default, false, none⟩
        wBoom ⟨[], 0⟩).state.stack = [7] ∧
    (TokioPostgresTransactionManager.execute envCommitFails ⟨.required, .default, false, none⟩
        wOk ⟨[], 0⟩).res = .error (.backend "COMMIT") ∧
    (TokioPostgresTransactionManager.execute envCommitFails ⟨.required, .default, false, none⟩
        wOk ⟨[], 0⟩).state.stack = [7] ∧
    (LibsqlTransactionManager.execute envOk ⟨.required, .default, false, none⟩
        wOk ⟨[], 0⟩).state.stack = [] ∧
    (LibsqlTransactionManager.execute envOk ⟨.required, .default, false, none⟩
        wBoom ⟨[], 0⟩).state.stack = [] ∧
    (MysqlAsyncTransactionManager.execute envAllStmtsFail ⟨.required, .default, false, none⟩
        wOk ⟨none, 0⟩).state.conn = none := by
  decide

/-- C4 (failing input): the mysql backend issues `START TRANSACTION`,
`COMMIT` and `ROLLBACK` through `.ok()`, so their failures are silently
swallowed: under an environment in which every statement fails, `execute`
still returns the work's own outcome. The libsql and postgres backends, by
contrast, surface the `BEGIN` failure as a fatal `Backend` error. -/
theorem mysql_control_statement_failures_swallowed :
    envAllStmtsFail.fails "START TRANSACTION" = true ∧
    envAllStmtsFail.fails "COMMIT" = true ∧
    envAllStmtsFail.fails "ROLLBACK" = true ∧
    (MysqlAsyncTransactionManager.execute envAllStmtsFail ⟨.required, .default, false, none⟩
        wOk ⟨none, 0⟩).res = .ok 0 ∧
    (MysqlAsyncTransactionManager.execute envAllStmtsFail ⟨.required, .default, false, none⟩
        wOk ⟨none, 0⟩).trace = ["START TRANSACTION", "COMMIT"] ∧
    (MysqlAsyncTransactionManager.execute envAllStmtsFail ⟨.required, .default, false, none⟩
        wBoom ⟨none, 0⟩).res = .error (.backend "boom") ∧
    (LibsqlTransactionManager.execute envAllStmtsFail ⟨.required, .default, false, none⟩
        wOk ⟨[], 0⟩).res = .error (.backend "BEGIN DEFERRED") ∧
    (TokioPostgresTransactionManager.execute envAllStmtsFail ⟨.required, .default, false, none⟩
        wOk ⟨[], 0⟩).res = .error (.backend "BEGIN") := by
  decide

/-- C5 (failing input): an `execute` call with propagation `Never` while no
transaction is active does *not* run the work bare: in all three backends it
falls into the start-a-transaction branch, issues BEGIN/START TRANSACTION and
COMMIT, and binds a connection that is visible to the work (the probe sees a
non-empty store). Supports/NotSupported while inactive do run the work bare. -/
theorem never_inactive_starts_transaction :
    (LibsqlTransactionManager.execute envOk ⟨.never, .default, false, none⟩
        wOk ⟨[], 0⟩).trace = ["PRAGMA busy_timeout = 1000", "BEGIN DEFERRED", "COMMIT"] ∧
    (LibsqlTransactionManager.execute envOk ⟨.never, .default, false, none⟩
        wProbeStack ⟨[], 0⟩).res = .ok 1 ∧
    (TokioPostgresTransactionManager.execute envOk ⟨.never, .default, false, none⟩
        wOk ⟨[], 0⟩).trace = ["BEGIN", "COMMIT"] ∧
    (MysqlAsyncTransactionManager.execute envOk ⟨.never, .default, false, none⟩
        wProbeMysql ⟨none, 0⟩).res = .ok 1 ∧
    (MysqlAsyncTransactionManager.execute envOk ⟨.never, .default, false, none⟩
        wOk ⟨none, 0⟩).trace = ["START TRANSACTION", "COMMIT"] ∧
    (LibsqlTransactionManager.execute envOk ⟨.supports, .default, false, none⟩
        wOk ⟨[], 0⟩).trace = [] ∧
    (LibsqlTransactionManager.execute envOk ⟨.notSupported, .default, false, none⟩
        wProbeStack ⟨[], 0⟩).res = .ok 0 := by
  decide

/-- C8 (failing input): when the mysql backend starts a transaction with a
non-`Default` isolation level, the `SET TRANSACTION ISOLATION LEVEL`
statement is issued *after* `START TRANSACTION`, not preceding it. -/
theorem mysql_isolation_issued_after_start :
    (MysqlAsyncTransactionManager.execute envOk ⟨.required, .serializable, false, none⟩
        wOk ⟨none, 0⟩).trace =
      ["START TRANSACTION", "SET TRANSACTION ISOLATION LEVEL SERIALIZABLE", "COMMIT"] ∧
    (MysqlAsyncTransactionManager.execute envOk ⟨.required, .readCommitted, false, none⟩
        wOk ⟨none, 0⟩).trace =
      ["START TRANSACTION", "SET TRANSACTION ISOLATION LEVEL READ COMMITTED", "COMMIT"] := by
  decide

/-- C3 (counterexample): the work closure's error is *not* always returned
unmodified: in the libsql backend, when the compensating top-level `ROLLBACK`
itself fails, `execute` returns the rollback's `Backend` error in place of
the work's original error. -/
theorem rollback_failure_masks_work_error :
    (wBoom (⟨[7], 0⟩ : StackStore)).1 = .error (.backend "boom") ∧
    (LibsqlTransactionManager.execute envRollbackFails ⟨.required, .default, false, none⟩
        wBoom ⟨[], 0⟩).res = .error (.backend "ROLLBACK") ∧
    (LibsqlTransactionManager.execute envRollbackFails ⟨.required, .default, false, none⟩
        wBoom ⟨[], 0⟩).res ≠ .error (.backend "boom") := by
  decide

/-- C7: every `LibsqlRepository` CRUD operation resolves its connection in
this order: (1) the ambient binding store's top-of-stack connection when the
stack is non-empty — regardless of any construction-bound connection, which
is how a repository constructed outside a transaction participates
automatically inside one — (2) the connection bound at construction, if any,
(3) a fresh connection from the backend database/pool (whose failure is a
`Backend` error); and all five operations use the same resolution. -/
theorem repository_connection_resolution_order
    (s : StackStore) (bound : Option Nat) (env : Env) :
    (∀ c, s.stack.head? = some c →
        LibsqlRepository.resolveConn s bound env = .ok c) ∧
    (∀ b, s.stack = [] → bound = some b →
        LibsqlRepository.resolveConn s bound env = .ok b) ∧
    (s.stack = [] → bound = none → env.connectFails = false →
        LibsqlRepository.resolveConn s bound env = .ok env.freshConn) ∧
    (s.stack = [] → bound = none → env.connectFails = true →
        LibsqlRepository.resolveConn s bound env = .error (.backend connectErrMsg)) ∧
    LibsqlRepository.find_by_id_conn s bound env
        = LibsqlRepository.resolveConn s bound env ∧
    LibsqlRepository.find_by_field_conn s bound env
        = LibsqlRepository.resolveConn s bound env ∧
    LibsqlRepository.insert_conn s bound env
        = LibsqlRepository.resolveConn s bound env ∧
    LibsqlRepository.update_conn s bound env
        = LibsqlRepository.resolveConn s bound env ∧
    LibsqlRepository.delete_by_id_conn s bound env
        = LibsqlRepository.resolveConn s bound env := by
  refine ⟨?_, ?_, ?_, ?_, rfl, rfl, rfl, rfl, rfl⟩
  · intro c hc
    simp [LibsqlRepository.resolveConn, hc]
  · intro b hs hb
    simp [LibsqlRepository.resolveConn, hs, hb]
  · intro hs hb hcf
    simp [LibsqlRepository.resolveConn, hs, hb, hcf]
  · intro hs hb hcf
    simp [LibsqlRepository.resolveConn, hs, hb, hcf]

/-- Witness for C7 at concrete inputs: a transaction stack wins over a bound
connection, the bound connection wins over the pool, and the pool is used
only as a last resort. -/
theorem repository_connection_resolution_witness :
    (⟨[9, 3], 2⟩ : StackStore).stack.head? = some 9 ∧
    LibsqlRepository.resolveConn ⟨[9, 3], 2⟩ (some 4) envOk = .ok 9 ∧
    LibsqlRepository.resolveConn ⟨[], 0⟩ (some 4) envOk = .ok 4 ∧
    LibsqlRepository.resolveConn ⟨[], 0⟩ none envOk = .ok 7 :=
  ⟨rfl,
   (repository_connection_resolution_order ⟨[9, 3], 2⟩ (some 4) envOk).1 9 rfl,
   (repository_connection_resolution_order ⟨[], 0⟩ (some 4) envOk).2.1 4 rfl rfl,
   (repository_connection_resolution_order ⟨[], 0⟩ none envOk).2.2.1 rfl rfl rfl⟩

/-- C6: in each backend, an `execute` call with propagation `RequiresNew` or
`Nested` while a transaction is active increments the savepoint depth (the
work runs at depth `d+1`) and issues `SAVEPOINT spN` with `N` the new depth;
after work it issues `RELEASE SAVEPOINT spN` on success or
`ROLLBACK TO SAVEPOINT spN` on failure, and the depth returns to its
pre-nesting value. The work is assumed to restore the depth (and, for
mysql, the bound connection) it was given, as balanced nested `execute`
calls do. -/
theorem savepoint_protocol_requires_new_nested {ρ : Type}
    (env : Env) (d : TransactionDefinition)
    (hprop : d.propagation = .requiresNew ∨ d.propagation = .nested)
    (wl : Work StackStore ρ) (sl : StackStore) (hl : sl.stack ≠ [])
    (hwl : (wl ⟨sl.stack, sl.depth + 1⟩).2.1.depth = sl.depth + 1)
    (wg : Work StackStore ρ) (sg : StackStore) (hg : sg.stack ≠ [])
    (hwg : (wg ⟨sg.stack, sg.depth + 1⟩).2.1.depth = sg.depth + 1)
    (wm : Work MysqlStore ρ) (sm : MysqlStore) (c : Nat) (hm : sm.conn = some c)
    (hwm : (wm ⟨sm.conn, sm.depth + 1⟩).2.1.conn = sm.conn)
    (hwmd : (wm ⟨sm.conn, sm.depth + 1⟩).2.1.depth = sm.depth + 1) :
    (LibsqlTransactionManager.execute env d wl sl).res
        = (wl ⟨sl.stack, sl.depth + 1⟩).1 ∧
    (LibsqlTransactionManager.execute env d wl sl).trace =
      ("SAVEPOINT " ++ spName (sl.depth + 1)) :: (wl ⟨sl.stack, sl.depth + 1⟩).2.2 ++
        [match (wl ⟨sl.stack, sl.depth + 1⟩).1 with
          | .ok _ => "RELEASE SAVEPOINT " ++ spName (sl.depth + 1)
          | .error _ => "ROLLBACK TO SAVEPOINT " ++ spName (sl.depth + 1)] ∧
    (LibsqlTransactionManager.execute env d wl sl).state.depth = sl.depth ∧
    (TokioPostgresTransactionManager.execute env d wg sg).res
        = (wg ⟨sg.stack, sg.depth + 1⟩).1 ∧
    (TokioPostgresTransactionManager.execute env d wg sg).trace =
      ("SAVEPOINT " ++ spName (sg.depth + 1)) :: (wg ⟨sg.stack, sg.depth + 1⟩).2.2 ++
        [match (wg ⟨sg.stack, sg.depth + 1⟩).1 with
          | .ok _ => "RELEASE SAVEPOINT " ++ spName (sg.depth + 1)
          | .error _ => "ROLLBACK TO SAVEPOINT " ++ spName (sg.depth + 1)] ∧
    (TokioPostgresTransactionManager.execute env d wg sg).state.depth = sg.depth ∧
    (MysqlAsyncTransactionManager.execute env d wm sm).res
        = (wm ⟨sm.conn, sm.depth + 1⟩).1 ∧
    (MysqlAsyncTransactionManager.execute env d wm sm).trace =
      ("SAVEPOINT " ++ spName (sm.depth + 1)) :: (wm ⟨sm.conn, sm.depth + 1⟩).2.2 ++
        [match (wm ⟨sm.conn, sm.depth + 1⟩).1 with
          | .ok _ => "RELEASE SAVEPOINT " ++ spName (sm.depth + 1)
          | .error _ => "ROLLBACK TO SAVEPOINT " ++ spName (sm.depth + 1)] ∧
    (MysqlAsyncTransactionManager.execute env d wm sm).state.depth = sm.depth := by
  obtain ⟨smc, smd⟩ := sm
  simp only at hm hwm hwmd ⊢
  subst hm
  rcases hwtl : wl ⟨sl.stack, sl.depth + 1⟩ with ⟨rl, sl2, trl⟩
  rcases hwtg : wg ⟨sg.stack, sg.depth + 1⟩ with ⟨rg, sg2, trg⟩
  rcases hwtm : wm ⟨some c, smd + 1⟩ with ⟨rm, sm2, trm⟩
  rw [hwtl] at hwl
  rw [hwtg] at hwg
  rw [hwtm] at hwm hwmd
  simp only at hwl hwg hwm hwmd
  rcases hprop with h | h <;>
    simp [LibsqlTransactionManager.execute, TokioPostgresTransactionManager.execute,
      MysqlAsyncTransactionManager.execute, hl, hg, h, hwtl, hwtg, hwtm,
      hwl, hwg, hwm, hwmd]

/-- Witness for C6 at concrete inputs. -/
theorem savepoint_protocol_witness :
    ((⟨.nested, .default, false, none⟩ : TransactionDefinition).propagation = .requiresNew ∨
      (⟨.nested, .default, false, none⟩ : TransactionDefinition).propagation = .nested) ∧
    (⟨[3], 0⟩ : StackStore).stack ≠ [] ∧
    (wOk (⟨[3], 1⟩ : StackStore)).2.1.depth = 1 ∧
    (⟨[5], 2⟩ : StackStore).stack ≠ [] ∧
    (wBoom (⟨[5], 3⟩ : StackStore)).2.1.depth = 3 ∧
    (⟨some 2, 0⟩ : MysqlStore).conn = some 2 ∧
    (wOk (⟨some 2, 1⟩ : MysqlStore)).2.1.conn = some 2 ∧
    (wOk (⟨some 2, 1⟩ : MysqlStore)).2.1.depth = 1 ∧
    (LibsqlTransactionManager.execute envOk ⟨.nested, .default, false, none⟩
        wOk ⟨[3], 0⟩).trace = ["SAVEPOINT sp1", "RELEASE SAVEPOINT sp1"] ∧
    (TokioPostgresTransactionManager.execute envOk ⟨.nested, .default, false, none⟩
        wBoom ⟨[5], 2⟩).trace = ["SAVEPOINT sp3", "ROLLBACK TO SAVEPOINT sp3"] ∧
    (MysqlAsyncTransactionManager.execute envOk ⟨.nested, .default, false, none⟩
        wOk ⟨some 2, 0⟩).state.depth = 0 := by
  have h := savepoint_protocol_requires_new_nested envOk ⟨.nested, .default, false, none⟩
    (Or.inr rfl) wOk ⟨[3], 0⟩ (by decide) (by decide)
    wBoom ⟨[5], 2⟩ (by decide) (by decide)
    wOk ⟨some 2, 0⟩ 2 rfl (by decide) (by decide)
  exact ⟨Or.inr rfl, by decide, by decide, by decide, by decide, rfl, by decide, by decide,
    h.2.1.trans (by decide), h.2.2.2.2.1.trans (by decide), h.2.2.2.2.2.2.2.2⟩

/-- C3 (amended): in the libsql and postgres backends, when the work closure
of an `execute` call that started the top-level transaction or opened a
savepoint returns an error, the manager issues exactly one compensating
statement — `ROLLBACK` at top level, `ROLLBACK TO SAVEPOINT spN` at
savepoint level (the trace is the manager's preamble, the work's own
statements, and that single compensating statement) — and, provided a
top-level `ROLLBACK` itself succeeds (savepoint rollbacks are issued
best-effort and never fail the call), the work closure's original error
value is returned to the caller unmodified. -/
theorem failed_work_single_compensation_error_preserved {ρ : Type}
    (env : Env) (d d2 : TransactionDefinition)
    (hprop : d.propagation = .required ∨ d.propagation = .requiresNew ∨
      d.propagation = .nested)
    (hprop2 : d2.propagation = .requiresNew ∨ d2.propagation = .nested)
    (hcf : env.connectFails = false)
    (hrb : env.fails "ROLLBACK" = false)
    (wl : Work StackStore ρ) (el : RepoError)
    (hbl : env.fails (begin_sql d.isolation) = false)
    (hwl : (wl ⟨[env.freshConn], 0⟩).1 = .error el)
    (wl2 : Work StackStore ρ) (sl : StackStore) (hl : sl.stack ≠ []) (el2 : RepoError)
    (hwl2 : (wl2 ⟨sl.stack, sl.depth + 1⟩).1 = .error el2)
    (hdl2 : (wl2 ⟨sl.stack, sl.depth + 1⟩).2.1.depth = sl.depth + 1)
    (wg : Work StackStore ρ) (eg : RepoError)
    (hbg : env.fails "BEGIN" = false)
    (hwg : (wg ⟨[env.freshConn], 0⟩).1 = .error eg)
    (wg2 : Work StackStore ρ) (sg : StackStore) (hg : sg.stack ≠ []) (eg2 : RepoError)
    (hwg2 : (wg2 ⟨sg.stack, sg.depth + 1⟩).1 = .error eg2)
    (hdg2 : (wg2 ⟨sg.stack, sg.depth + 1⟩).2.1.depth = sg.depth + 1) :
    (LibsqlTransactionManager.execute env d wl ⟨[], 0⟩).res = .error el ∧
    (LibsqlTransactionManager.execute env d wl ⟨[], 0⟩).trace =
      (if d.read_only then ["PRAGMA query_only = ON"] else []) ++
      ["PRAGMA busy_timeout = " ++ toString (d.timeout.getD 1000)] ++
      [begin_sql d.isolation] ++ (wl ⟨[env.freshConn], 0⟩).2.2 ++ ["ROLLBACK"] ++
      (if d.read_only then ["PRAGMA query_only = OFF"] else []) ∧
    (LibsqlTransactionManager.execute env d wl ⟨[], 0⟩).state.stack =
      (wl ⟨[env.freshConn], 0⟩).2.1.stack.tail ∧
    (LibsqlTransactionManager.execute env d2 wl2 sl).res = .error el2 ∧
    (LibsqlTransactionManager.execute env d2 wl2 sl).trace =
      ("SAVEPOINT " ++ spName (sl.depth + 1)) :: (wl2 ⟨sl.stack, sl.depth + 1⟩).2.2 ++
      ["ROLLBACK TO SAVEPOINT " ++ spName (sl.depth + 1)] ∧
    (LibsqlTransactionManager.execute env d2 wl2 sl).state.depth = sl.depth ∧
    (TokioPostgresTransactionManager.execute env d wg ⟨[], 0⟩).res = .error eg ∧
    (TokioPostgresTransactionManager.execute env d wg ⟨[], 0⟩).trace =
      ["BEGIN"] ++
      (match isolation_sql d.isolation with | some stmt => [stmt] | none => []) ++
      (if d.read_only then ["SET TRANSACTION READ ONLY"] else []) ++
      (match d.timeout with
        | some ms => ["SET LOCAL statement_timeout = '" ++ toString ms ++ "ms'"]
        | none => []) ++
      (wg ⟨[env.freshConn], 0⟩).2.2 ++ ["ROLLBACK"] ∧
    (TokioPostgresTransactionManager.execute env d wg ⟨[], 0⟩).state.stack =
      (wg ⟨[env.freshConn], 0⟩).2.1.stack.tail ∧
    (TokioPostgresTransactionManager.execute env d2 wg2 sg).res = .error eg2 ∧
    (TokioPostgresTransactionManager.execute env d2 wg2 sg).trace =
      ("SAVEPOINT " ++ spName (sg.depth + 1)) :: (wg2 ⟨sg.stack, sg.depth + 1⟩).2.2 ++
      ["ROLLBACK TO SAVEPOINT " ++ spName (sg.depth + 1)] ∧
    (TokioPostgresTransactionManager.execute env d2 wg2 sg).state.depth = sg.depth := by
  rcases hwtl : wl ⟨[env.freshConn], 0⟩ with ⟨rl, sl1, trl⟩
  rcases hwtl2 : wl2 ⟨sl.stack, sl.depth + 1⟩ with ⟨rl2, sl2, trl2⟩
  rcases hwtg : wg ⟨[env.freshConn], 0⟩ with ⟨rg, sg1, trg⟩
  rcases hwtg2 : wg2 ⟨sg.stack, sg.depth + 1⟩ with ⟨rg2, sg2, trg2⟩
  rw [hwtl] at hwl
  rw [hwtl2] at hwl2 hdl2
  rw [hwtg] at hwg
  rw [hwtg2] at hwg2 hdg2
  simp only at hwl hwl2 hdl2 hwg hwg2 hdg2
  subst hwl hwl2 hwg hwg2
  rcases hprop with h | h | h <;> rcases hprop2 with h2 | h2 <;>
    simp [LibsqlTransactionManager.execute, TokioPostgresTransactionManager.execute,
      hl, hg, h, h2, hcf, hrb, hbl, hbg, hwtl, hwtl2, hwtg, hwtg2, hdl2, hdg2]

/-- Witness for C3 (amended) at concrete inputs. -/
theorem failed_work_single_compensation_witness :
    envOk.fails "ROLLBACK" = false ∧
    (wBoom (⟨[7], 0⟩ : StackStore)).1 = .error (.backend "boom") ∧
    (LibsqlTransactionManager.execute envOk ⟨.required, .default, false, none⟩
        wBoom ⟨[], 0⟩).res = .error (.backend "boom") ∧
    (LibsqlTransactionManager.execute envOk ⟨.required, .default, false, none⟩
        wBoom ⟨[], 0⟩).trace
      = ["PRAGMA busy_timeout = 1000", "BEGIN DEFERRED", "ROLLBACK"] ∧
    (LibsqlTransactionManager.execute envOk ⟨.requiresNew, .default, false, none⟩
        wBoom ⟨[3], 0⟩).trace = ["SAVEPOINT sp1", "ROLLBACK TO SAVEPOINT sp1"] ∧
    (TokioPostgresTransactionManager.execute envOk ⟨.required, .default, false, none⟩
        wBoom ⟨[], 0⟩).trace = ["BEGIN", "ROLLBACK"] := by
  have h := failed_work_single_compensation_error_preserved envOk
    ⟨.required, .default, false, none⟩ ⟨.requiresNew, .default, false, none⟩
    (Or.inl rfl) (Or.inl rfl) rfl rfl
    wBoom (.backend "boom") (by decide) (by decide)
    wBoom ⟨[3], 0⟩ (by decide) (.backend "boom") (by decide) (by decide)
    wBoom (.backend "boom") (by decide) (by decide)
    wBoom ⟨[5], 1⟩ (by decide) (.backend "boom") (by decide) (by decide)
  exact ⟨rfl, by decide, h.1, h.2.1.trans (by decide), h.2.2.2.2.1.trans (by decide),
    h.2.2.2.2.2.2.2.1.trans (by decide)⟩
